import Mathlib

/-!
Verification development for the `rna_seq_factornet` repository.

The repository snapshot contains the orchestration class
`ExpressionPipeline` (src/rna_seq_factornet/pipeline/core.py) together with
examples and packaging files.  The model class `ExpressionFactorNet`
(models/factornet.py), the attribution engine `InterpretationMethods`
(interpretation/methods.py) and the data loader are imported by core.py but
their files are not in the snapshot; where a definition embeds one of those
missing pieces it is modelled from the specification and its doc comment says
so explicitly.  Numeric values are embedded as rationals, matrices as lists of
rows.
-/

namespace RnaSeqFactorNet

/-- Modelled from the spec: a trained FactorNet model together with the tensor
backend's reverse-mode gradient engine.  `models/factornet.py` is missing from
the snapshot and the spec treats the tensor backend as an external
collaborator, so the model is represented by its two capabilities:
`predictRow`, the forward pass producing one scalar prediction per gene row,
and `grad`, the gradient of the scalar prediction with respect to each input
position of a row. -/
structure GradModel where
  predictRow : List ℚ → ℚ
  grad : List ℚ → List ℚ

/-- Modelled from the spec: `ExpressionFactorNet.predict` maps a batch of gene
rows to the vector of scalar predictions, one per row. -/
def GradModel.predictBatch (m : GradModel) (X : List (List ℚ)) : List ℚ :=
  X.map m.predictRow

/-- Modelled from the spec: `InterpretationMethods.standard_gradients`
(interpretation/methods.py is missing): the gradient of the prediction with
respect to the input, evaluated at the true input, row by row. -/
def standard_gradients (m : GradModel) (X : List (List ℚ)) : List (List ℚ) :=
  X.map m.grad

/-- Modelled from the spec: `InterpretationMethods.saliency_gradients`
(interpretation/methods.py is missing): the element-wise absolute value of the
gradient at the true input. -/
def saliency_gradients (m : GradModel) (X : List (List ℚ)) : List (List ℚ) :=
  X.map (fun row => (m.grad row).map (fun a => |a|))

/-- Modelled from the spec: `InterpretationMethods.bpnet_contribution_scores`
(interpretation/methods.py is missing): the element-wise product of the
gradient at the true input with the input itself. -/
def bpnet_contribution_scores (m : GradModel) (X : List (List ℚ)) : List (List ℚ) :=
  X.map (fun row => List.zipWith (fun g a => g * a) (m.grad row) row)

/-- Scalar multiple of a vector, element-wise. -/
def scaleVec (c : ℚ) (v : List ℚ) : List ℚ :=
  v.map (fun a => c * a)

/-- Element-wise sum of two vectors. -/
def addVec (v w : List ℚ) : List ℚ :=
  List.zipWith (fun a b => a + b) v w

/-- Sum of a list of vectors of common length `n`, starting from the zero
vector of that length. -/
def sumVecs (n : ℕ) (vs : List (List ℚ)) : List ℚ :=
  vs.foldl addVec (List.replicate n 0)

/-- Modelled from the spec: one row of
`InterpretationMethods.integrated_gradients_scores`
(interpretation/methods.py is missing), with the all-zeros baseline: the input
times the average of the gradients taken at the `steps` interpolation points
(k/steps) · x for k = 1 .. steps. -/
def igRow (m : GradModel) (steps : ℕ) (row : List ℚ) : List ℚ :=
  List.zipWith (fun a g => a * g) row
    (scaleVec (1 / (steps : ℚ))
      (sumVecs row.length
        ((List.range steps).map
          (fun k => m.grad (scaleVec (((k : ℚ) + 1) / (steps : ℚ)) row)))))

/-- Modelled from the spec: `InterpretationMethods.integrated_gradients_scores`
applied to a batch, row by row.  The spec requires `steps ≥ 1`; claims that
involve this method carry that hypothesis. -/
def integrated_gradients_scores (m : GradModel) (steps : ℕ) (X : List (List ℚ)) :
    List (List ℚ) :=
  X.map (igRow m steps)

/-- Matrices have the same shape when they have the same number of rows and
corresponding rows have the same length. -/
def sameShape (A B : List (List ℚ)) : Prop :=
  List.Forall₂ (fun r s => r.length = s.length) A B

/-- Element-wise (Hadamard) product of two matrices. -/
def hadamard (A B : List (List ℚ)) : List (List ℚ) :=
  List.zipWith (fun r s => List.zipWith (fun a b => a * b) r s) A B

lemma sameShape_map (f : List ℚ → List ℚ) (X : List (List ℚ))
    (h : ∀ r, (f r).length = r.length) : sameShape (X.map f) X := by
  induction X with
  | nil => exact List.Forall₂.nil
  | cons r t ih => exact List.Forall₂.cons (h r) ih

lemma length_addVec (v w : List ℚ) : (addVec v w).length = min v.length w.length := by
  simp [addVec]

lemma length_foldl_addVec (n : ℕ) :
    ∀ vs : List (List ℚ), (∀ v ∈ vs, v.length = n) →
      ∀ acc : List ℚ, acc.length = n → (vs.foldl addVec acc).length = n := by
  intro vs
  induction vs with
  | nil => intro _ acc hacc; simpa using hacc
  | cons v t ih =>
    intro h acc hacc
    have hv : v.length = n := h v (List.mem_cons_self v t)
    have ht : ∀ w ∈ t, w.length = n := fun w hw => h w (List.mem_cons_of_mem v hw)
    have hstep : (addVec acc v).length = n := by
      rw [length_addVec, hacc, hv, Nat.min_self]
    exact ih ht (addVec acc v) hstep

lemma length_sumVecs (n : ℕ) (vs : List (List ℚ)) (h : ∀ v ∈ vs, v.length = n) :
    (sumVecs n vs).length = n :=
  length_foldl_addVec n vs h _ (List.length_replicate n 0)

lemma length_igRow (m : GradModel) (hg : ∀ row, (m.grad row).length = row.length)
    (steps : ℕ) (row : List ℚ) : (igRow m steps row).length = row.length := by
  have hgrads : ∀ v ∈ (List.range steps).map
      (fun k => m.grad (scaleVec (((k : ℚ) + 1) / (steps : ℚ)) row)),
      v.length = row.length := by
    intro v hv
    rcases List.mem_map.1 hv with ⟨k, _, rfl⟩
    rw [hg, scaleVec, List.length_map]
  rw [igRow, List.length_zipWith, scaleVec, List.length_map,
    length_sumVecs row.length _ hgrads, Nat.min_self]

/-- C3: for every model and every input batch, the saliency attribution equals
the element-wise absolute value of the standard-gradients attribution. -/
theorem saliency_eq_abs_standard_gradients (m : GradModel) (X : List (List ℚ)) :
    saliency_gradients m X =
      (standard_gradients m X).map (fun row => row.map (fun a => |a|)) := by
  simp [saliency_gradients, standard_gradients, List.map_map, Function.comp]

/-- C4: for every model and every input batch, the BPNet-style contribution
score equals the element-wise product of the standard gradients with the input
itself. -/
theorem bpnet_eq_gradient_times_input (m : GradModel) (X : List (List ℚ)) :
    bpnet_contribution_scores m X = hadamard (standard_gradients m X) X := by
  induction X with
  | nil => rfl
  | cons r t ih =>
    simp only [bpnet_contribution_scores, standard_gradients, hadamard,
      List.map_cons, List.zipWith_cons_cons] at ih ⊢
    exact congrArg _ ih

/-- Modelled from the spec: the validation fold of the k-fold split used by
`ExpressionFactorNet.train_with_cv` (models/factornet.py is missing).  The
spec assigns gene index `i` to fold `i % k`; the validation set of fold `f`
collects the gene indices assigned to `f`. -/
def valSet (n k f : ℕ) : List ℕ :=
  (List.range n).filter (fun i => i % k = f)

/-- Modelled from the spec: the training set of fold `f` of the k-fold split:
all gene indices not assigned to fold `f`. -/
def trainSet (n k f : ℕ) : List ℕ :=
  (List.range n).filter (fun i => i % k ≠ f)

/-- Errors of the training harness named by the spec's taxonomy. -/
inductive CVError where
  | configurationError
  | dataError
  deriving DecidableEq, Repr

/-- Modelled from the spec: the parameter validation and fold construction of
`ExpressionFactorNet.train_with_cv` (models/factornet.py is missing).  When
`k_folds` exceeds the number of genes (rows of `X`) the call fails with
`ConfigurationError`; otherwise it produces, for each fold, the pair of its
training and validation index sets.  The per-fold optimization loop and the
metric aggregation are side effects on learned weights and are not needed by
any claim, so they are omitted here. -/
def train_with_cv_folds (X : List (List ℚ)) (k_folds : ℕ) :
    Except CVError (List (List ℕ × List ℕ)) :=
  if X.length < k_folds then .error .configurationError
  else .ok ((List.range k_folds).map
    (fun f => (trainSet X.length k_folds f, valSet X.length k_folds f)))

/-- Arithmetic mean of a list of rationals (0 on the empty list, since the
denominator is then 0 and division by 0 is 0 in ℚ). -/
def mean (xs : List ℚ) : ℚ :=
  xs.sum / (xs.length : ℚ)

/-- Residual sum of squares between predictions and targets. -/
def ssRes (preds targets : List ℚ) : ℚ :=
  (List.zipWith (fun p t => (t - p) ^ 2) preds targets).sum

/-- Total sum of squares of the targets around their mean. -/
def ssTot (targets : List ℚ) : ℚ :=
  (targets.map (fun t => (t - mean targets) ^ 2)).sum

/-- Modelled from the spec: the per-fold validation R² metric used by
`ExpressionFactorNet.train_with_cv` (models/factornet.py is missing):
R² = 1 − SS_res/SS_tot, with the degenerate case SS_tot = 0 defined to be 0.0
instead of raising a division error. -/
def r2Score (preds targets : List ℚ) : ℚ :=
  if ssTot targets = 0 then 0 else 1 - ssRes preds targets / ssTot targets

lemma mem_valSet (n k f i : ℕ) : i ∈ valSet n k f ↔ i < n ∧ i % k = f := by
  simp [valSet, List.mem_filter, List.mem_range]

lemma mem_trainSet (n k f i : ℕ) : i ∈ trainSet n k f ↔ i < n ∧ i % k ≠ f := by
  simp [trainSet, List.mem_filter, List.mem_range]

/-- C2: for all n ≥ k ≥ 2, the k-fold partition used by `train_with_cv`
assigns every gene index below n to exactly one validation fold, every
validation fold is duplicate-free and contained in the gene index range, only
the k folds are non-empty, and each fold's training and validation sets are
disjoint. -/
theorem cv_fold_partition (n k : ℕ) (hk : 2 ≤ k) (hkn : k ≤ n) :
    (∀ i, i < n → ∃! f, i ∈ valSet n k f) ∧
    (∀ f, (valSet n k f).Nodup) ∧
    (∀ f i, i ∈ valSet n k f → i < n) ∧
    (∀ f i, i ∈ valSet n k f → f < k) ∧
    (∀ f i, ¬(i ∈ trainSet n k f ∧ i ∈ valSet n k f)) := by
  have hk0 : 0 < k := lt_of_lt_of_le (by norm_num) hk
  refine ⟨?_, ?_, ?_, ?_, ?_⟩
  · intro i hi
    refine ⟨i % k, (mem_valSet n k (i % k) i).2 ⟨hi, rfl⟩, ?_⟩
    intro f hf
    exact ((mem_valSet n k f i).1 hf).2.symm
  · intro f
    exact (List.nodup_range n).filter _
  · intro f i hi
    exact ((mem_valSet n k f i).1 hi).1
  · intro f i hi
    have h := ((mem_valSet n k f i).1 hi).2
    exact h ▸ Nat.mod_lt i hk0
  · rintro f i ⟨ht, hv⟩
    exact ((mem_trainSet n k f i).1 ht).2 ((mem_valSet n k f i).1 hv).2

/-- Witness for C2 at n = 5, k = 2. -/
theorem cv_fold_partition_witness :
    (∀ i, i < 5 → ∃! f, i ∈ valSet 5 2 f) ∧
    (∀ f, (valSet 5 2 f).Nodup) ∧
    (∀ f i, i ∈ valSet 5 2 f → i < 5) ∧
    (∀ f i, i ∈ valSet 5 2 f → f < 2) ∧
    (∀ f i, ¬(i ∈ trainSet 5 2 f ∧ i ∈ valSet 5 2 f)) :=
  cv_fold_partition 5 2 (by decide) (by decide)

lemma sum_of_constant (l : List ℚ) (c : ℚ) (h : ∀ t ∈ l, t = c) :
    l.sum = (l.length : ℚ) * c := by
  induction l with
  | nil => simp
  | cons a t ih =>
    have ha : a = c := h a (List.mem_cons_self a t)
    have ht : ∀ x ∈ t, x = c := fun x hx => h x (List.mem_cons_of_mem a hx)
    rw [List.sum_cons, ha, ih ht, List.length_cons, Nat.cast_add, Nat.cast_one]
    ring

lemma mean_of_constant (l : List ℚ) (c : ℚ) (hne : l ≠ []) (h : ∀ t ∈ l, t = c) :
    mean l = c := by
  have hlen : (l.length : ℚ) ≠ 0 := by
    have hl : l.length ≠ 0 := by simpa [List.length_eq_zero] using hne
    exact_mod_cast hl
  rw [mean, sum_of_constant l c h, mul_comm, mul_div_assoc, div_self hlen, mul_one]

lemma ssTot_of_constant (l : List ℚ) (c : ℚ) (h : ∀ t ∈ l, t = c) : ssTot l = 0 := by
  rcases eq_or_ne l [] with rfl | hne
  · simp [ssTot]
  · rw [ssTot]
    apply List.sum_eq_zero
    intro x hx
    rcases List.mem_map.1 hx with ⟨t, ht, rfl⟩
    rw [h t ht, mean_of_constant l c hne h]
    ring

/-- C5: on every fold whose validation targets are all identical (so that
SS_tot = 0), the R² metric is exactly 0; `r2Score` is a total function, so no
exception and no NaN can arise. -/
theorem r2_degenerate_zero (preds targets : List ℚ) (c : ℚ)
    (h : ∀ t ∈ targets, t = c) : r2Score preds targets = 0 := by
  simp [r2Score, ssTot_of_constant targets c h]

/-- Witness for C5 on constant targets [3, 3, 3]. -/
theorem r2_degenerate_zero_witness : r2Score [1, 2, 4] [3, 3, 3] = 0 :=
  r2_degenerate_zero [1, 2, 4] [3, 3, 3] 3 (by decide)

/-- C6: every call to `train_with_cv` in which `k_folds` exceeds the number of
genes fails with `ConfigurationError`. -/
theorem cv_too_many_folds (X : List (List ℚ)) (k_folds : ℕ)
    (h : X.length < k_folds) :
    train_with_cv_folds X k_folds = .error .configurationError := by
  simp [train_with_cv_folds, h]

/-- Witness for C6: k_folds = 10 with n_genes = 5 fails with
`ConfigurationError`. -/
theorem cv_too_many_folds_witness :
    train_with_cv_folds [[1], [2], [3], [4], [5]] 10 = .error .configurationError :=
  cv_too_many_folds [[1], [2], [3], [4], [5]] 10 (by decide)

/-- C8: whenever the backend gradient is shape-preserving (the spec's contract
for standard gradients) and `steps ≥ 1`, all four attribution methods return a
matrix of exactly the shape of the input batch. -/
theorem attribution_shape_invariance (m : GradModel)
    (hg : ∀ row, (m.grad row).length = row.length)
    (X : List (List ℚ)) (steps : ℕ) (hs : 1 ≤ steps) :
    sameShape (standard_gradients m X) X ∧
    sameShape (saliency_gradients m X) X ∧
    sameShape (integrated_gradients_scores m steps X) X ∧
    sameShape (bpnet_contribution_scores m X) X := by
  refine ⟨sameShape_map _ X hg, sameShape_map _ X ?_, sameShape_map _ X ?_,
    sameShape_map _ X ?_⟩
  · intro r
    rw [List.length_map, hg]
  · intro r
    exact length_igRow m hg steps r
  · intro r
    rw [List.length_zipWith, hg, Nat.min_self]

/-- Concrete model used by witnesses: the forward pass sums the row and the
backend gradient is the identity (which is shape-preserving). -/
def wModel : GradModel where
  predictRow := fun r => r.sum
  grad := fun r => r

/-- Witness for C8 on a concrete ragged batch with the concrete model. -/
theorem attribution_shape_invariance_witness :
    sameShape (standard_gradients wModel [[1, 2, 3], [4, 5, 6]]) [[1, 2, 3], [4, 5, 6]] ∧
    sameShape (saliency_gradients wModel [[1, 2, 3], [4, 5, 6]]) [[1, 2, 3], [4, 5, 6]] ∧
    sameShape (integrated_gradients_scores wModel 2 [[1, 2, 3], [4, 5, 6]]) [[1, 2, 3], [4, 5, 6]] ∧
    sameShape (bpnet_contribution_scores wModel [[1, 2, 3], [4, 5, 6]]) [[1, 2, 3], [4, 5, 6]] :=
  attribution_shape_invariance wModel (fun _ => rfl) [[1, 2, 3], [4, 5, 6]] 2 (by decide)

/-- Errors observable from `ExpressionPipeline` calls.  `valueError` embeds
the Python `ValueError` that core.py raises, with its message.  `typeError`
and `attributeError` embed the Python errors produced by accessing
`self.data[...]` or `self.model.predict` when the attribute is `None` (states
unreachable through the public API).  `modelNotTrainedError` is the typed
error named by the spec's taxonomy; no code in the repository defines or
raises such a class — the constructor exists only so the spec's claim about it
can be stated and compared against what the code actually raises. -/
inductive PipelineError where
  | valueError (msg : String)
  | typeError
  | attributeError
  | modelNotTrainedError
  deriving DecidableEq, Repr

/-- The processed data dictionary produced by the excluded loader collaborator
and stored in `self.data` by `load_data` (fields as read by core.py). -/
structure DataSet where
  gene_names : List String
  sample_names : List String
  expression_features : List (List ℚ)
  expression_targets : List ℚ
  deriving DecidableEq

/-- The results dictionary returned by `ExpressionPipeline.interpret`
(core.py lines 175-181). -/
structure InterpretResult where
  method : String
  feature_importance : List (List ℚ)
  gene_names : List String
  sample_names : List String
  predictions : List ℚ
  deriving DecidableEq

/-- The mutable attributes of `ExpressionPipeline` read by the embedded
methods (core.py lines 36-38): `model`, `data` and `interpreter`.  The
interpreter is `InterpretationMethods(model)`, a thin wrapper holding the
trained model, so it is represented by the wrapped model itself. -/
structure ExpressionPipeline where
  model : Option GradModel
  data : Option DataSet
  interpreter : Option GradModel

/-- Embeds the `ExpressionPipeline` constructor (core.py lines 30-41):
`model`, `data` and `interpreter` all start as `None`. -/
def ExpressionPipeline.init : ExpressionPipeline :=
  { model := none, data := none, interpreter := none }

/-- Embeds `ExpressionPipeline.load_data` (core.py lines 43-80).  Loading and
preprocessing are delegated to the excluded loader collaborator, so the
processed data set is taken as an argument; the call stores it in `self.data`
and leaves `model` and `interpreter` untouched. -/
def ExpressionPipeline.load_data (p : ExpressionPipeline) (d : DataSet) :
    ExpressionPipeline :=
  { p with data := some d }

/-- Embeds the method-string dispatch inside `ExpressionPipeline.interpret`
(core.py lines 165-173): `bpnet`, `saliency` and `integrated_gradients` select
the attribution computation of the same name, and every other string falls
through the final `else` to standard gradients. -/
def dispatchAttribution (interp : GradModel) (method : String) (steps : ℕ)
    (features : List (List ℚ)) : List (List ℚ) :=
  if method = "bpnet" then bpnet_contribution_scores interp features
  else if method = "saliency" then saliency_gradients interp features
  else if method = "integrated_gradients" then
    integrated_gradients_scores interp steps features
  else standard_gradients interp features

/-- Embeds `ExpressionPipeline.interpret` (core.py lines 143-184).  When
`self.interpreter` is `None` it raises ValueError with message
"Train model first using train_model()".  Otherwise it clamps `n_genes` to the
number of loaded genes, slices the first `n_genes` feature rows, dispatches on
the method string, and returns the results dictionary tagged with the caller's
method string.  The `steps` argument embeds `kwargs.get` with its default 50
for the integrated-gradients branch. -/
def ExpressionPipeline.interpret (p : ExpressionPipeline) (method : String)
    (n_genes : ℕ) (steps : ℕ) : Except PipelineError InterpretResult :=
  match p.interpreter with
  | none => .error (.valueError "Train model first using train_model()")
  | some interp =>
    match p.data with
    | none => .error .typeError
    | some data =>
      let n := min n_genes data.gene_names.length
      let features := data.expression_features.take n
      match p.model with
      | none => .error .attributeError
      | some model =>
        .ok { method := method,
              feature_importance := dispatchAttribution interp method steps features,
              gene_names := data.gene_names.take n,
              sample_names := data.sample_names,
              predictions := model.predictBatch features }

/-- Embeds `ExpressionPipeline.predict` (core.py lines 239-247): raises
ValueError "Train model first" when `self.model` is `None`; otherwise predicts
on the given features, falling back to the loaded `expression_features` when
the argument is `None`. -/
def ExpressionPipeline.predict (p : ExpressionPipeline)
    (expression_features : Option (List (List ℚ))) :
    Except PipelineError (List ℚ) :=
  match p.model with
  | none => .error (.valueError "Train model first")
  | some m =>
    match expression_features with
    | some X => .ok (m.predictBatch X)
    | none =>
      match p.data with
      | none => .error .typeError
      | some d => .ok (m.predictBatch d.expression_features)

/-- A pipeline history in which no training call has run: starting from the
constructor, any sequence of `load_data` calls.  In core.py, `train_model` and
`load_pipeline` are the only methods that assign `self.model` and
`self.interpreter` (and pipeline persistence is outside the spec's scope), so
these are exactly the states reachable without training. -/
def runLoads (p : ExpressionPipeline) (ds : List DataSet) : ExpressionPipeline :=
  ds.foldl ExpressionPipeline.load_data p

lemma runLoads_untrained (ds : List DataSet) :
    ∀ p : ExpressionPipeline, p.model = none → p.interpreter = none →
      (runLoads p ds).model = none ∧ (runLoads p ds).interpreter = none := by
  induction ds with
  | nil => intro p h1 h2; exact ⟨h1, h2⟩
  | cons d t ih =>
    intro p h1 h2
    exact ih (p.load_data d) h1 h2

lemma interpret_no_interpreter (p : ExpressionPipeline)
    (h : p.interpreter = none) (method : String) (n_genes steps : ℕ) :
    p.interpret method n_genes steps =
      .error (.valueError "Train model first using train_model()") := by
  cases p with
  | mk m d i =>
    have hi : i = none := h
    subst hi
    rfl

lemma predict_no_model (p : ExpressionPipeline) (h : p.model = none)
    (features : Option (List (List ℚ))) :
    p.predict features = .error (.valueError "Train model first") := by
  cases p with
  | mk m d i =>
    have hm : m = none := h
    subst hm
    rfl

/-- C1 counterexample: on the freshly constructed pipeline, where no training
call has run, `interpret` and `predict` raise Python `ValueError`, which is
not the `ModelNotTrainedError` the claim names. -/
theorem untrained_error_is_value_error_not_model_not_trained :
    ExpressionPipeline.init.interpret "bpnet" 5 50 =
      .error (.valueError "Train model first using train_model()") ∧
    ExpressionPipeline.init.predict none =
      .error (.valueError "Train model first") ∧
    PipelineError.valueError "Train model first using train_model()" ≠
      PipelineError.modelNotTrainedError ∧
    PipelineError.valueError "Train model first" ≠
      PipelineError.modelNotTrainedError :=
  ⟨rfl, rfl, by decide, by decide⟩

/-- C1 (amended): for every pipeline in which no training call has run — any
state reached from the constructor by `load_data` calls alone — invoking
`predict` or `interpret` (with any method string, in particular bpnet,
saliency, integrated_gradients and gradients) raises `ValueError`, with
message "Train model first using train_model()" for `interpret` and
"Train model first" for `predict`; the repository defines no
`ModelNotTrainedError` class. -/
theorem untrained_pipeline_raises_value_error (ds : List DataSet)
    (method : String) (n_genes steps : ℕ)
    (features : Option (List (List ℚ))) :
    (runLoads ExpressionPipeline.init ds).interpret method n_genes steps =
      .error (.valueError "Train model first using train_model()") ∧
    (runLoads ExpressionPipeline.init ds).predict features =
      .error (.valueError "Train model first") := by
  obtain ⟨h1, h2⟩ := runLoads_untrained ds ExpressionPipeline.init rfl rfl
  exact ⟨interpret_no_interpreter _ h2 method n_genes steps,
    predict_no_model _ h1 features⟩

lemma interpret_trained (mo interp : GradModel) (d : DataSet) (method : String)
    (n_genes steps : ℕ) :
    (ExpressionPipeline.mk (some mo) (some d) (some interp)).interpret
        method n_genes steps =
      .ok { method := method,
            feature_importance := dispatchAttribution interp method steps
              (d.expression_features.take (min n_genes d.gene_names.length)),
            gene_names := d.gene_names.take (min n_genes d.gene_names.length),
            sample_names := d.sample_names,
            predictions := mo.predictBatch
              (d.expression_features.take (min n_genes d.gene_names.length)) } :=
  rfl

/-- C7: on every trained pipeline, `interpret` tags its result with the method
string naming the attribution computation that actually produced the
importance matrix: bpnet_contribution_scores for bpnet, saliency_gradients
for saliency, integrated_gradients_scores for integrated_gradients, and
standard_gradients for gradients. -/
theorem interpret_method_tag (mo interp : GradModel) (d : DataSet)
    (n_genes steps : ℕ) :
    (∃ r, (ExpressionPipeline.mk (some mo) (some d) (some interp)).interpret
        "bpnet" n_genes steps = .ok r ∧ r.method = "bpnet" ∧
      r.feature_importance = bpnet_contribution_scores interp
        (d.expression_features.take (min n_genes d.gene_names.length))) ∧
    (∃ r, (ExpressionPipeline.mk (some mo) (some d) (some interp)).interpret
        "saliency" n_genes steps = .ok r ∧ r.method = "saliency" ∧
      r.feature_importance = saliency_gradients interp
        (d.expression_features.take (min n_genes d.gene_names.length))) ∧
    (∃ r, (ExpressionPipeline.mk (some mo) (some d) (some interp)).interpret
        "integrated_gradients" n_genes steps = .ok r ∧
      r.method = "integrated_gradients" ∧
      r.feature_importance = integrated_gradients_scores interp steps
        (d.expression_features.take (min n_genes d.gene_names.length))) ∧
    (∃ r, (ExpressionPipeline.mk (some mo) (some d) (some interp)).interpret
        "gradients" n_genes steps = .ok r ∧ r.method = "gradients" ∧
      r.feature_importance = standard_gradients interp
        (d.expression_features.take (min n_genes d.gene_names.length))) := by
  refine ⟨⟨_, interpret_trained mo interp d "bpnet" n_genes steps, rfl, ?_⟩,
    ⟨_, interpret_trained mo interp d "saliency" n_genes steps, rfl, ?_⟩,
    ⟨_, interpret_trained mo interp d "integrated_gradients" n_genes steps, rfl, ?_⟩,
    ⟨_, interpret_trained mo interp d "gradients" n_genes steps, rfl, ?_⟩⟩ <;>
  simp [dispatchAttribution]

/-- C9: on every trained pipeline, `interpret` with any method string other
than bpnet, saliency and integrated_gradients does not raise: it computes the
importance matrix with standard gradients and tags the result with the
caller's original string. -/
theorem interpret_unrecognized_falls_back (mo interp : GradModel) (d : DataSet)
    (method : String) (n_genes steps : ℕ)
    (h1 : method ≠ "bpnet") (h2 : method ≠ "saliency")
    (h3 : method ≠ "integrated_gradients") :
    (ExpressionPipeline.mk (some mo) (some d) (some interp)).interpret
        method n_genes steps =
      .ok { method := method,
            feature_importance := standard_gradients interp
              (d.expression_features.take (min n_genes d.gene_names.length)),
            gene_names := d.gene_names.take (min n_genes d.gene_names.length),
            sample_names := d.sample_names,
            predictions := mo.predictBatch
              (d.expression_features.take (min n_genes d.gene_names.length)) } := by
  rw [interpret_trained]
  simp [dispatchAttribution, h1, h2, h3]

/-- Concrete data set used by witnesses: 2 genes with 3 samples each. -/
def wData : DataSet where
  gene_names := ["g1", "g2"]
  sample_names := ["s1", "s2", "s3"]
  expression_features := [[1, 2, 3], [4, 5, 6]]
  expression_targets := [7, 8]

/-- Witness for C9 with the unrecognized method string "foo". -/
theorem interpret_unrecognized_falls_back_witness :
    (ExpressionPipeline.mk (some wModel) (some wData) (some wModel)).interpret
        "foo" 2 50 =
      .ok { method := "foo",
            feature_importance := standard_gradients wModel
              (wData.expression_features.take (min 2 wData.gene_names.length)),
            gene_names := wData.gene_names.take (min 2 wData.gene_names.length),
            sample_names := wData.sample_names,
            predictions := wModel.predictBatch
              (wData.expression_features.take (min 2 wData.gene_names.length)) } :=
  interpret_unrecognized_falls_back wModel wModel wData "foo" 2 50
    (by decide) (by decide) (by decide)

lemma dispatch_length (interp : GradModel) (method : String) (steps : ℕ)
    (features : List (List ℚ)) :
    (dispatchAttribution interp method steps features).length = features.length := by
  unfold dispatchAttribution
  split_ifs <;>
    simp [bpnet_contribution_scores, saliency_gradients,
      integrated_gradients_scores, standard_gradients]

/-- C10: on every trained pipeline whose feature matrix has one row per loaded
gene, `interpret` called with `n_genes` larger than the number of loaded genes
does not raise: it clamps `n_genes`, and the importance matrix, the gene-name
list and the prediction vector all have exactly
min(n_genes, number of loaded genes) rows. -/
theorem interpret_clamps_n_genes (mo interp : GradModel) (d : DataSet)
    (hlen : d.expression_features.length = d.gene_names.length)
    (method : String) (n_genes steps : ℕ)
    (hn : d.gene_names.length < n_genes) :
    ∃ r, (ExpressionPipeline.mk (some mo) (some d) (some interp)).interpret
        method n_genes steps = .ok r ∧
      r.feature_importance.length = min n_genes d.gene_names.length ∧
      r.gene_names.length = min n_genes d.gene_names.length ∧
      r.predictions.length = min n_genes d.gene_names.length := by
  refine ⟨_, interpret_trained mo interp d method n_genes steps, ?_, ?_, ?_⟩ <;>
    simp [dispatch_length, GradModel.predictBatch, List.length_take, hlen]

/-- Witness for C10: the concrete 2-gene data set queried with n_genes = 5. -/
theorem interpret_clamps_n_genes_witness :
    ∃ r, (ExpressionPipeline.mk (some wModel) (some wData) (some wModel)).interpret
        "bpnet" 5 50 = .ok r ∧
      r.feature_importance.length = min 5 wData.gene_names.length ∧
      r.gene_names.length = min 5 wData.gene_names.length ∧
      r.predictions.length = min 5 wData.gene_names.length :=
  interpret_clamps_n_genes wModel wModel wData rfl "bpnet" 5 50 (by decide)

end RnaSeqFactorNet
